import Mathlib

/-!
Verification development for the storm-aggregation map builder
(`weather_by_storm.py`).  Python floats are modelled as exact rationals
in the discrete estimators and parsers, and as real numbers in the
transcendental estimators (powers of ten, square roots, cosines).
Python dictionary records are modelled as association lists of dynamic
values.
-/

namespace StormMap

/-- Dynamic Python values as they occur in the parsed JSON/CSV feeds:
`None`, numbers (int and float merged, as exact rationals), strings and
arrays. -/
inductive PyVal where
  | pnone
  | num (q : ℚ)
  | str (s : String)
  | list (l : List PyVal)

/-- Python truthiness of the values above: `None`, `0`, the empty string
and the empty array are falsy. -/
def PyVal.truthy : PyVal → Bool
  | .pnone => false
  | .num q => decide (q ≠ 0)
  | .str s => !(s == "")
  | .list l => !l.isEmpty

/-- Model of the Python expression `a or b`. -/
def pyOr (a b : PyVal) : PyVal := if a.truthy then a else b

/-- A parsed JSON object or CSV-derived record. -/
abbrev Record := List (String × PyVal)

/-- Model of `storm.get(k)`: the value stored under `k`, or `None`. -/
def getKey (r : Record) (k : String) : PyVal :=
  match r.find? (fun p => p.1 == k) with
  | some p => p.2
  | none => .pnone

/-- Model of Python `str.strip` on a character list. -/
def pyStrip (l : List Char) : List Char :=
  ((l.dropWhile Char.isWhitespace).reverse.dropWhile Char.isWhitespace).reverse

/-- ASCII upper-casing of one character. -/
def upperChar (c : Char) : Char :=
  if 'a' ≤ c && c ≤ 'z' then Char.ofNat (c.toNat - 32) else c

/-- Model of Python `str.upper` (the feed strings are ASCII). -/
def pyUpper (l : List Char) : List Char := l.map upperChar

/-- Value of a digit string read left to right. -/
def natOfDigits (l : List Char) : ℕ :=
  l.foldl (fun a c => 10 * a + (c.toNat - '0'.toNat)) 0

/-- Discrete part of the Python `float(s)` model on the plain signed
decimal notation the feeds use (optional sign, digits, optional
fractional part, surrounding whitespace tolerated): the sign, the
mantissa and the decimal exponent, with `none` where `float` raises.
The numeric value the parse denotes is `decimalValue` of these parts. -/
def floatParts (l0 : List Char) : Option (Bool × ℕ × ℕ) :=
  let l := pyStrip l0
  let sl : Bool × List Char :=
    match l with
    | '+' :: r => (false, r)
    | '-' :: r => (true, r)
    | r => (false, r)
  let ip := sl.2.takeWhile Char.isDigit
  match sl.2.dropWhile Char.isDigit with
  | [] => if ip.isEmpty then none else some (sl.1, natOfDigits ip, 0)
  | '.' :: fp =>
    if fp.all Char.isDigit && !(ip.isEmpty && fp.isEmpty) then
      some (sl.1, 10 ^ fp.length * natOfDigits ip + natOfDigits fp, fp.length)
    else none
  | _ => none

/-- Numeric value denoted by parsed decimal parts:
`(-1)^sign * mantissa / 10^exponent`. -/
def decimalValue (p : Bool × ℕ × ℕ) : ℚ :=
  if p.1 then -((p.2.1 : ℚ) / (10 : ℚ) ^ p.2.2) else (p.2.1 : ℚ) / (10 : ℚ) ^ p.2.2

/-- Model of Python `float(s)`: the discrete parse followed by its
valuation. -/
def floatOfChars (l0 : List Char) : Option ℚ := (floatParts l0).map decimalValue

/-- Model of Python `str(v)` as far as the adapters consume it: strings
pass through, `None` prints as `None`, and numeric or array reprs only
ever feed substring tests for letter sequences, which no digit, slash or
bracket repr can match. -/
def pyStr : PyVal → String
  | .pnone => "None"
  | .num q => toString q
  | .str s => s
  | .list _ => "[]"

/-- Model of `to_float` (src lines 57-61): `float(v)` in a try/except,
`none` where `float` raises. -/
def to_float : PyVal → Option ℚ
  | .num q => some q
  | .str s => floatOfChars s.toList
  | _ => none

/-- Discrete part of `parse_lat` on the string path (src lines 66-71):
strip and upper-case, a trailing `N` keeps the sign of the remainder, a
trailing `S` flips it, anything else parses as a bare signed decimal. -/
def latParts (l : List Char) : Option (Bool × ℕ × ℕ) :=
  let s := pyUpper (pyStrip l)
  match s.getLast? with
  | some 'N' => floatParts s.dropLast
  | some 'S' => (floatParts s.dropLast).map (fun p => (!p.1, p.2))
  | _ => floatParts s

/-- Discrete part of `parse_lon` on the string path (src lines 76-81):
trailing `E` keeps the sign, trailing `W` flips it. -/
def lonParts (l : List Char) : Option (Bool × ℕ × ℕ) :=
  let s := pyUpper (pyStrip l)
  match s.getLast? with
  | some 'E' => floatParts s.dropLast
  | some 'W' => (floatParts s.dropLast).map (fun p => (!p.1, p.2))
  | _ => floatParts s

/-- Model of `parse_lat` (src lines 63-71). -/
def parse_lat (v : PyVal) : Option ℚ :=
  match v with
  | .pnone => none
  | .num q => some q
  | _ => (latParts (pyStr v).toList).map decimalValue

/-- Model of `parse_lon` (src lines 73-81). -/
def parse_lon (v : PyVal) : Option ℚ :=
  match v with
  | .pnone => none
  | .num q => some q
  | _ => (lonParts (pyStr v).toList).map decimalValue

/-- Model of Python `int(s)` on strings: optional sign and digits only,
whitespace tolerated; anything else raises. -/
def intOfChars (l0 : List Char) : Option ℤ :=
  let l := pyStrip l0
  let sl : Bool × List Char :=
    match l with
    | '+' :: r => (false, r)
    | '-' :: r => (true, r)
    | r => (false, r)
  if !sl.2.isEmpty && sl.2.all Char.isDigit then
    some (if sl.1 then -(natOfDigits sl.2 : ℤ) else (natOfDigits sl.2 : ℤ))
  else none

/-- Truncation toward zero, the behaviour of Python `int` on floats. -/
def ratTrunc (q : ℚ) : ℤ := if 0 ≤ q then ⌊q⌋ else ⌈q⌉

/-- Model of Python `int(v)` in a try/except: floats truncate, integer
strings parse, anything else fails. -/
def pyIntOpt : PyVal → Option ℤ
  | .num q => some (ratTrunc q)
  | .str s => intOfChars s.toList
  | _ => none

/-- Does the second list start with the first one? -/
def hasPre : List Char → List Char → Bool
  | [], _ => true
  | _ :: _, [] => false
  | a :: as, b :: bs => a == b && hasPre as bs

/-- Model of the Python substring test `needle in hay`. -/
def hasSub (needle : List Char) : List Char → Bool
  | [] => hasPre needle []
  | b :: t => hasPre needle (b :: t) || hasSub needle t

/-- Wind-band ladder of `estimate_tc_radius_km` (src lines 462-470). -/
def codeWindBand (kts : ℚ) : ℚ :=
  if kts < 34 then 100 else if kts < 50 then 150
  else if kts < 64 then 200 else if kts < 83 then 250
  else if kts < 96 then 300 else if kts < 113 then 350
  else if kts < 137 then 420 else 500

/-- Saffir-Simpson dictionary lookup with its default,
`{0:250,1:250,2:300,3:350,4:420,5:500}.get(c, 200.0)` (src line 476). -/
def codeCatValue (c : ℤ) : ℚ :=
  if c = 0 then 250 else if c = 1 then 250 else if c = 2 then 300
  else if c = 3 then 350 else if c = 4 then 420 else if c = 5 then 500 else 200

/-- Configured default cyclone radius (src line 21). -/
def STORM_RADIUS_KM : ℚ := 200

/-- Status-string fallback of `estimate_tc_radius_km`
(src lines 480-485). -/
def codeStatusRadius (storm : Record) : ℚ :=
  let status := pyUpper (pyStr (pyOr (pyOr (pyOr (pyOr (getKey storm "type")
    (getKey storm "stormType")) (getKey storm "class")) (getKey storm "status"))
    (.str ""))).toList
  if hasSub "TD".toList status then 120
  else if hasSub "TS".toList status then 200
  else if hasSub "HU".toList status || hasSub "HURRICANE".toList status then 320
  else STORM_RADIUS_KM

/-- Model of `estimate_tc_radius_km` (src lines 458-485). -/
def estimate_tc_radius_km (storm : Record) : ℚ :=
  let windVal := pyOr (pyOr (pyOr (getKey storm "wind") (getKey storm "maxWind"))
    (getKey storm "intensity")) (getKey storm "sustainedWind")
  match to_float windVal with
  | some w => codeWindBand (max 0 w)
  | none =>
    match getKey storm "sshs" with
    | .pnone => codeStatusRadius storm
    | v =>
      match pyIntOpt v with
      | some c => codeCatValue c
      | none => codeStatusRadius storm

/-- Cyclone radius after the clamp (src line 489). -/
def tcRadiusClamped (storm : Record) : ℚ :=
  max 60 (min 600 (estimate_tc_radius_km storm))

/-- First wind key whose value parses numerically, the lookup order
claim C2 words (before any truthiness filtering). -/
def claimFirstWind (storm : Record) : Option ℚ :=
  match to_float (getKey storm "wind") with
  | some w => some w
  | none =>
    match to_float (getKey storm "maxWind") with
    | some w => some w
    | none =>
      match to_float (getKey storm "intensity") with
      | some w => some w
      | none => to_float (getKey storm "sustainedWind")

/-- The category map exactly as claim C2 words it: values only for the
codes 0 to 5. -/
def claimCatMap (c : ℤ) : Option ℚ :=
  if c = 0 then some 250 else if c = 1 then some 250 else if c = 2 then some 300
  else if c = 3 then some 350 else if c = 4 then some 420 else if c = 5 then some 500
  else none

/-- The cyclone cascade exactly as claim C2 words it: any key with a
numeric wind feeds the bands; a category code outside the map falls
through to the status cascade. -/
def claimTcRadius (storm : Record) : ℚ :=
  max 60 (min 600 (
    match claimFirstWind storm with
    | some w => codeWindBand w
    | none =>
      match pyIntOpt (getKey storm "sshs") with
      | some c =>
        match claimCatMap c with
        | some r => r
        | none => codeStatusRadius storm
      | none => codeStatusRadius storm))

/-- Wind-band decision table: threshold paired with radius. -/
def windBandTable : List (ℚ × ℚ) :=
  [(34, 100), (50, 150), (64, 200), (83, 250), (96, 300), (113, 350), (137, 420)]

/-- Band lookup over the decision table: the first threshold strictly
above the wind wins, otherwise 500. -/
def bandLookup (w : ℚ) : ℚ :=
  match windBandTable.find? (fun p => decide (w < p.1)) with
  | some p => p.2
  | none => 500

/-- Category decision table of the cyclone cascade. -/
def catTable : List (ℤ × ℚ) := [(0, 250), (1, 250), (2, 300), (3, 350), (4, 420), (5, 500)]

/-- Category lookup with the dictionary default 200. -/
def catLookup (c : ℤ) : ℚ :=
  ((catTable.find? (fun p => decide (p.1 = c))).map Prod.snd).getD 200

/-- The cyclone cascade as amended: the first truthy value among the
wind keys is parsed and fed to the band table with negative winds
floored at 0; an integer category code resolves through the map with
default 200 for codes outside it; else the status cascade; else 200;
clamped to [60, 600]. -/
def amendedTcRadius (storm : Record) : ℚ :=
  let windVal := pyOr (pyOr (pyOr (getKey storm "wind") (getKey storm "maxWind"))
    (getKey storm "intensity")) (getKey storm "sustainedWind")
  max 60 (min 600 (
    match to_float windVal with
    | some w => bandLookup (max 0 w)
    | none =>
      match getKey storm "sshs" with
      | .pnone => codeStatusRadius storm
      | v =>
        match pyIntOpt v with
        | some c => catLookup c
        | none => codeStatusRadius storm))

/-- Record filter of the NHC cyclone section (src lines 451-454): a
storm is kept iff both coordinates parse; nothing else is checked. -/
def cycloneKeep (storm : Record) : Bool :=
  (parse_lat (getKey storm "lat")).isSome && (parse_lon (getKey storm "lon")).isSome

/-- Row filter of the SPC severe-report section (src lines 316-324): at
least 8 columns and the trailing two columns parse as numbers. -/
def spcKeep (row : List String) : Bool :=
  if row.length < 8 then false
  else
    match row.reverse with
    | lonS :: latS :: _ => (floatOfChars latS.toList).isSome && (floatOfChars lonS.toList).isSome
    | _ => false

/-- Geometry filter of the EONET volcano section (src lines 189-191):
only absence or a short coordinate array drops a record; the parsed
coordinates are never inspected.  (A non-array coordinates value makes
the Python `len` call raise, which also emits no event.) -/
def volcanoKeep : PyVal → Bool
  | .list l => decide (2 ≤ l.length)
  | _ => false

/-- Coordinates the volcano section passes on for a kept geometry
(src line 192): the parse results are forwarded unchecked. -/
def volcanoCoords (l : List PyVal) : Option ℚ × Option ℚ :=
  (to_float (l.getD 0 .pnone), to_float (l.getD 1 .pnone))

/-- Retryable statuses of the configured `Retry` (src line 34). -/
def statusForcelist : List ℕ := [429, 500, 502, 503, 504]

/-- Retry budget `total=2` of the configured `Retry` (src line 32). -/
def totalRetries : ℕ := 2

/-- `backoff_factor=0.5` of the configured `Retry` (src line 33). -/
def backoffFactor : ℚ := 1 / 2

/-- Result of one `fetch_json`/`fetch_text` call. -/
inductive FetchOutcome where
  | success
  | httpError (code : ℕ)
  | exhausted
deriving DecidableEq

/-- One GET through the shared session: the retry loop that the
configured urllib3 `Retry(total=2, status_forcelist=[429,500,502,503,
504], allowed_methods=["GET"])` performs (src lines 30-44), followed by
`raise_for_status` (src lines 47-55).  A forcelisted status consumes
retry budget, exhausting it fails the request; any other status ends
the loop, raising `HTTPError` for codes of 400 and above and returning
the body otherwise.  `resp n` is the status the server answers on
attempt `n` (responses carry no redirect target); the result pairs the
outcome with the number of attempts made. -/
def runFetch (resp : ℕ → ℕ) : ℕ → ℕ → FetchOutcome × ℕ
  | 0, attempt =>
    if resp attempt ∈ statusForcelist then (.exhausted, attempt + 1)
    else if 400 ≤ resp attempt then (.httpError (resp attempt), attempt + 1)
    else (.success, attempt + 1)
  | b + 1, attempt =>
    if resp attempt ∈ statusForcelist then runFetch resp b (attempt + 1)
    else if 400 ≤ resp attempt then (.httpError (resp attempt), attempt + 1)
    else (.success, attempt + 1)

/-- A GET with the full configured retry budget. -/
def fetchGet (resp : ℕ → ℕ) : FetchOutcome × ℕ := runFetch resp totalRetries 0

/-- Backoff before the k-th retry of one request:
`backoff_factor * 2^(k-1)` seconds, urllib3's schedule for the
configuration above; there is no delay before the first attempt. -/
def backoffDelay : ℕ → ℚ
  | 0 => 0
  | k + 1 => backoffFactor * 2 ^ k

/-- The seven hazard layers in the order `build_map` attaches them to
the map (src lines 179, 212, 277, 340, 402, 443, 503). -/
inductive Src where
  | radar
  | volcano
  | nws
  | spc
  | quake
  | fire
  | storm
deriving DecidableEq

/-- Position of a layer in the fixed attach order. -/
def srcPriority : Src → ℕ
  | .radar => 0
  | .volcano => 1
  | .nws => 2
  | .spc => 3
  | .quake => 4
  | .fire => 5
  | .storm => 6

/-- Events of one source tagged with their layer; a source whose block
raised (`none`) contributes nothing. -/
def taggedEvents {α : Type} (s : Src) (o : Option (List α)) : List (Src × α) :=
  (o.getD []).map (fun a => (s, a))

/-- Event sequence of one full `build_map` cycle: each source block
fills its own layer inside its own try/except and the layers are
attached in the fixed order above.  The earthquake source merges its
two feeds in the order `as_completed` yields them (src lines 349-361),
so `eqResults` lists the fetched feed payloads in completion order. -/
def assembleEvents {α : Type} (radarEv volcanoEv nwsEv spcEv : Option (List α))
    (eqResults : Option (List (List α))) (fireEv stormEv : Option (List α)) :
    List (Src × α) :=
  taggedEvents .radar radarEv ++ taggedEvents .volcano volcanoEv ++
    taggedEvents .nws nwsEv ++ taggedEvents .spc spcEv ++
    taggedEvents .quake (some ((eqResults.getD []).flatten)) ++
    taggedEvents .fire fireEv ++ taggedEvents .storm stormEv

/-- Update (or append) one key of the success-count dictionary,
mirroring Python dict assignment with insertion order. -/
def setCount (k : String) (v : ℕ) : List (String × ℕ) → List (String × ℕ)
  | [] => [(k, v)]
  | (k1, v1) :: t => if k1 = k then (k, v) :: t else (k1, v1) :: setCount k v t

/-- Value stored under a key of the count dictionary, if any. -/
def lookupCount (k : String) (c : List (String × ℕ)) : Option ℕ :=
  (c.find? (fun p => p.1 == k)).map Prod.snd

/-- The initial `counts` dictionary (src line 154).  There is no key for
the volcano source, none yet for the severe reports, and no field
anywhere for attempt counts or failure kinds. -/
def initCounts : List (String × ℕ) :=
  [("radar", 0), ("nws", 0), ("earthquakes", 0), ("fires", 0), ("storms", 0)]

/-- The `counts` dictionary after one cycle, source by source in the
order the blocks run.  For the radar, alert, wildfire and cyclone
blocks a fetch failure raises out of the block to its own try/except
before the counter assignment, so their argument is optional: `none`
models the block raising (the radar block additionally stores 1 only
when a frame is present, src line 173, so a fetch failure and a frameless
answer are indistinguishable there).  The severe-report and earthquake
blocks swallow fetch errors internally (`fetch_spc_csv` returns `[]` on
any exception, src lines 283-288, and each USGS future has its own
try, src lines 352-357), so those blocks always reach their counter
assignment: their argument is the plain number of rendered items, 0 on
a total fetch failure, with `spc_lsr` created as a new key at that
point (src line 337). -/
def buildCounts (radarHasFrame : Option Bool) (nwsN : Option ℕ) (spcN eqN : ℕ)
    (fireN stormN : Option ℕ) : List (String × ℕ) :=
  let c1 := match radarHasFrame with
    | some true => setCount "radar" 1 initCounts
    | _ => initCounts
  let c2 := match nwsN with
    | some n => setCount "nws" n c1
    | none => c1
  let c3 := setCount "spc_lsr" spcN c2
  let c4 := setCount "earthquakes" eqN c3
  let c5 := match fireN with
    | some n => setCount "fires" n c4
    | none => c4
  match stormN with
  | some n => setCount "storms" n c5
  | none => c5

/-- Approximate felt area `10 ** (1.02 * M - 1.83)` in square km
(src line 377). -/
noncomputable def feltAreaKm2 (M : ℝ) : ℝ := (10 : ℝ) ^ (1.02 * M - 1.83)

/-- Base felt radius `(A / pi) ** 0.5` in km (src line 378). -/
noncomputable def quakeBaseRadius (M : ℝ) : ℝ := (feltAreaKm2 M / Real.pi) ^ (0.5 : ℝ)

/-- Depth attenuation factor (src lines 380-385); `none` models a feed
entry without a numeric depth. -/
noncomputable def depthFactor : Option ℝ → ℝ
  | none => 1
  | some d => if 300 < d then 0.5 else if 70 < d then 0.7 else 1

/-- Earthquake impact radius in km after attenuation and clamping
(src lines 377-387). -/
noncomputable def quakeRadiusKm (M : ℝ) (depth : Option ℝ) : ℝ :=
  max 2 (min 300 (quakeBaseRadius M * depthFactor depth))

/-- Claim C1's seismic formula, with the square root the spec words and
the same attenuation and clamp. -/
noncomputable def specSeismicRadius (M d : ℝ) : ℝ :=
  max 2 (min 300 (Real.sqrt ((10 : ℝ) ^ (1.02 * M - 1.83) / Real.pi) *
    (if 300 < d then 0.5 else if 70 < d then 0.7 else 1)))

/-- Wildfire footprint radius in meters (src lines 415-428): the
area-equivalent circle of the scan/track sensor footprint when all three
numbers are present, the nominal 500 m otherwise.  The code floors the
longitude scale factor at 0 and the footprint area at 1 m². -/
noncomputable def fireRadiusM (scan track lat : Option ℝ) : ℝ :=
  match scan, track, lat with
  | some sc, some tr, some la =>
    max 150 (min 2000 (Real.sqrt
      (max 1 (sc * 111320 * max 0 (Real.cos (la * Real.pi / 180)) * (tr * 111320)) /
        Real.pi)))
  | _, _, _ => 500

/-- Claim C5's wildfire formula, with no cosine floor and no area
floor. -/
noncomputable def specFireRadius (sc tr la : ℝ) : ℝ :=
  max 150 (min 2000 (Real.sqrt
    (sc * 111320 * Real.cos (la * Real.pi / 180) * (tr * 111320) / Real.pi)))

lemma bandLookup_eq (w : ℚ) : bandLookup w =
    if w < 34 then 100 else if w < 50 then 150
    else if w < 64 then 200 else if w < 83 then 250
    else if w < 96 then 300 else if w < 113 then 350
    else if w < 137 then 420 else 500 := by
  simp only [bandLookup, windBandTable, List.find?]
  by_cases h1 : w < 34
  · simp [h1]
  by_cases h2 : w < 50
  · simp [h1, h2]
  by_cases h3 : w < 64
  · simp [h1, h2, h3]
  by_cases h4 : w < 83
  · simp [h1, h2, h3, h4]
  by_cases h5 : w < 96
  · simp [h1, h2, h3, h4, h5]
  by_cases h6 : w < 113
  · simp [h1, h2, h3, h4, h5, h6]
  by_cases h7 : w < 137
  · simp [h1, h2, h3, h4, h5, h6, h7]
  simp [h1, h2, h3, h4, h5, h6, h7]

lemma codeWindBand_eq_bandLookup (w : ℚ) : codeWindBand w = bandLookup w := by
  rw [bandLookup_eq]; rfl

lemma catLookup_eq (c : ℤ) : catLookup c = codeCatValue c := by
  simp only [catLookup, catTable, List.find?, codeCatValue]
  by_cases h0 : (0 : ℤ) = c
  · simp [← h0]
  by_cases h1 : (1 : ℤ) = c
  · simp [← h1, h0]
  by_cases h2 : (2 : ℤ) = c
  · simp [← h2, h0, h1]
  by_cases h3 : (3 : ℤ) = c
  · simp [← h3, h0, h1, h2]
  by_cases h4 : (4 : ℤ) = c
  · simp [← h4, h0, h1, h2, h3]
  by_cases h5 : (5 : ℤ) = c
  · simp [← h5, h0, h1, h2, h3, h4]
  simp only [h0, h1, h2, h3, h4, h5, decide_False]
  rw [if_neg (fun h => h0 h.symm), if_neg (fun h => h1 h.symm), if_neg (fun h => h2 h.symm),
    if_neg (fun h => h3 h.symm), if_neg (fun h => h4 h.symm), if_neg (fun h => h5 h.symm)]
  rfl

/-- Claim C6: the coordinate parsers return numeric input unchanged,
honour trailing hemisphere letters after trimming and upper-casing (`N`
and `E` keep the sign of the remainder, `S` and `W` negate it), parse
any other string as a generic signed decimal, fail on non-numeric or
empty or null input, and perform no range check: "40.5N" yields 40.5,
"73.5W" yields -73.5 and "91N" yields 91.0. -/
theorem claim_C6_coordinate_parsing :
    (∀ q : ℚ, parse_lat (PyVal.num q) = some q ∧ parse_lon (PyVal.num q) = some q) ∧
    parse_lat (PyVal.str "40.5N") = some (81 / 2) ∧
    parse_lat (PyVal.str " 40.5n ") = some (81 / 2) ∧
    parse_lat (PyVal.str "12.5S") = some (-(25 / 2)) ∧
    parse_lon (PyVal.str "73.5W") = some (-(147 / 2)) ∧
    parse_lon (PyVal.str "10E") = some 10 ∧
    parse_lat (PyVal.str "-7.25") = some (-(29 / 4)) ∧
    parse_lat (PyVal.str "91N") = some 91 ∧
    parse_lat PyVal.pnone = none ∧ parse_lon PyVal.pnone = none ∧
    parse_lat (PyVal.str "") = none ∧ parse_lon (PyVal.str "") = none ∧
    parse_lat (PyVal.str "abc") = none ∧ parse_lon (PyVal.str "40.5N") = none := by
  refine ⟨fun q => ⟨rfl, rfl⟩, ?_, ?_, ?_, ?_, ?_, ?_, ?_, by decide, by decide,
    by decide, by decide, by decide, by decide⟩
  · show (latParts "40.5N".toList).map decimalValue = some (81 / 2)
    rw [show latParts "40.5N".toList = some (false, 405, 1) from by decide]
    show some (decimalValue (false, 405, 1)) = some (81 / 2)
    norm_num [decimalValue]
  · show (latParts " 40.5n ".toList).map decimalValue = some (81 / 2)
    rw [show latParts " 40.5n ".toList = some (false, 405, 1) from by decide]
    show some (decimalValue (false, 405, 1)) = some (81 / 2)
    norm_num [decimalValue]
  · show (latParts "12.5S".toList).map decimalValue = some (-(25 / 2))
    rw [show latParts "12.5S".toList = some (true, 125, 1) from by decide]
    show some (decimalValue (true, 125, 1)) = some (-(25 / 2))
    norm_num [decimalValue]
  · show (lonParts "73.5W".toList).map decimalValue = some (-(147 / 2))
    rw [show lonParts "73.5W".toList = some (true, 735, 1) from by decide]
    show some (decimalValue (true, 735, 1)) = some (-(147 / 2))
    norm_num [decimalValue]
  · show (lonParts "10E".toList).map decimalValue = some 10
    rw [show lonParts "10E".toList = some (false, 10, 0) from by decide]
    show some (decimalValue (false, 10, 0)) = some 10
    norm_num [decimalValue]
  · show (latParts "-7.25".toList).map decimalValue = some (-(29 / 4))
    rw [show latParts "-7.25".toList = some (true, 725, 2) from by decide]
    show some (decimalValue (true, 725, 2)) = some (-(29 / 4))
    norm_num [decimalValue]
  · show (latParts "91N".toList).map decimalValue = some 91
    rw [show latParts "91N".toList = some (false, 91, 0) from by decide]
    show some (decimalValue (false, 91, 0)) = some 91
    norm_num [decimalValue]

/-- Claim C2 fails on the code at a storm with no wind key, category
code 7 and status `HU`: the claim's cascade gives the status value
320 km, while the code returns the dictionary default 200 km without
consulting the status. -/
theorem claim_C2_counterexample :
    tcRadiusClamped [("sshs", PyVal.num 7), ("type", PyVal.str "HU")] = 200 ∧
    claimTcRadius [("sshs", PyVal.num 7), ("type", PyVal.str "HU")] = 320 :=
  ⟨by decide, by decide⟩

/-- Claim C2 as amended: the wind is the first truthy value among the
keys wind, maxWind, intensity, sustainedWind, parsed to a number and
floored at 0, then banded by the decision table; failing that, an
integer category code resolves through the category map with default
200 km for codes outside it; failing that, the status cascade, else the
200 km default; the result is clamped into [60, 600] km, and a 90 kt
wind yields 300 km. -/
theorem claim_C2_amended_cascade :
    (∀ storm : Record, tcRadiusClamped storm = amendedTcRadius storm) ∧
    tcRadiusClamped [("wind", PyVal.num 90)] = 300 := by
  refine ⟨fun storm => ?_, by decide⟩
  simp only [tcRadiusClamped, estimate_tc_radius_km, amendedTcRadius,
    codeWindBand_eq_bandLookup, catLookup_eq]

/-- Claim C3 fails on the code: the cyclone adapter keeps a storm whose
latitude parses to 91, outside [-90, 90]; the only check is that both
coordinates parse. -/
theorem claim_C3_counterexample :
    cycloneKeep [("lat", PyVal.str "91N"), ("lon", PyVal.num 0)] = true ∧
    parse_lat (PyVal.str "91N") = some 91 ∧ ¬((91 : ℚ) ≤ 90) := by
  refine ⟨by decide, ?_, by norm_num⟩
  show (latParts "91N".toList).map decimalValue = some 91
  rw [show latParts "91N".toList = some (false, 91, 0) from by decide]
  show some (decimalValue (false, 91, 0)) = some 91
  norm_num [decimalValue]

/-- Claim C3 as amended: the cyclone and severe-report adapters drop a
record exactly when a coordinate fails to parse; neither performs any
range check, so every numeric latitude whatsoever is kept and events
with out-of-range coordinates are stored. -/
theorem claim_C3_amended_no_range_check :
    (∀ storm : Record, cycloneKeep storm = true ↔
      (∃ la, parse_lat (getKey storm "lat") = some la) ∧
      (∃ lo, parse_lon (getKey storm "lon") = some lo)) ∧
    (∀ la lo : ℚ, cycloneKeep [("lat", PyVal.num la), ("lon", PyVal.num lo)] = true) ∧
    (∀ row : List String, spcKeep row = true ↔
      8 ≤ row.length ∧ ∃ lonS latS rest, row.reverse = lonS :: latS :: rest ∧
        (floatOfChars latS.toList).isSome = true ∧ (floatOfChars lonS.toList).isSome = true) ∧
    spcKeep ["t", "t", "t", "t", "t", "t", "91.0", "0.0"] = true := by
  refine ⟨fun storm => ?_, fun la lo => ?_, fun row => ?_, by decide⟩
  · simp [cycloneKeep, Option.isSome_iff_exists]
  · simp [cycloneKeep, getKey, List.find?, parse_lat, parse_lon]
  · by_cases hl : row.length < 8
    · rw [spcKeep, if_pos hl]
      constructor
      · intro h; simp at h
      · rintro ⟨h8, -⟩; exact absurd h8 (by omega)
    · rcases hr : row.reverse with _ | ⟨lonS, tl⟩
      · exfalso
        have hlen := congrArg List.length hr
        simp only [List.length_reverse, List.length_nil] at hlen
        omega
      rcases tl with _ | ⟨latS, rest⟩
      · exfalso
        have hlen := congrArg List.length hr
        simp only [List.length_reverse, List.length_cons, List.length_nil] at hlen
        omega
      rw [spcKeep, if_neg hl]
      simp only [hr]
      constructor
      · intro h
        rw [Bool.and_eq_true] at h
        exact ⟨by omega, lonS, latS, rest, rfl, h.1, h.2⟩
      · rintro ⟨-, lonT, latT, restT, heq, h1, h2⟩
        obtain ⟨rfl, rfl, rfl⟩ : lonT = lonS ∧ latT = latS ∧ restT = rest := by
          injection heq with e1 e2
          injection e2 with e3 e4
          exact ⟨e1.symm, e3.symm, e4.symm⟩
        rw [Bool.and_eq_true]
        exact ⟨h1, h2⟩

/-- Claim C10 fails on the code: the volcano adapter keeps a geometry
whose coordinate entries do not parse to numbers at all, forwarding a
pair of missing coordinates to event construction instead of dropping
the record. -/
theorem claim_C10_counterexample :
    volcanoKeep (PyVal.list [PyVal.str "x", PyVal.str "y"]) = true ∧
    to_float (PyVal.str "x") = none ∧
    volcanoCoords [PyVal.str "x", PyVal.str "y"] = (none, none) := by
  refine ⟨by decide, by decide, by decide⟩

/-- Claim C10 as amended: the cyclone and severe-report adapters drop
every record whose coordinates fail to parse and continue with the
rest; the volcano adapter checks only that the coordinate array is
present with at least two entries and passes unparseable coordinates
through to event construction. -/
theorem claim_C10_amended_drop_policy :
    (∀ storm : Record, parse_lat (getKey storm "lat") = none → cycloneKeep storm = false) ∧
    (∀ storm : Record, parse_lon (getKey storm "lon") = none → cycloneKeep storm = false) ∧
    (∀ (row : List String) (lonS latS : String) (rest : List String),
      row.reverse = lonS :: latS :: rest → floatOfChars latS.toList = none →
      spcKeep row = false) ∧
    (∀ l : List PyVal, 2 ≤ l.length → volcanoKeep (PyVal.list l) = true) := by
  refine ⟨fun storm h => ?_, fun storm h => ?_, fun row lonS latS rest hr hp => ?_,
    fun l hl => ?_⟩
  · simp [cycloneKeep, h]
  · simp [cycloneKeep, h]
  · by_cases hlen : row.length < 8
    · rw [spcKeep, if_pos hlen]
    · have hp2 : (floatOfChars latS.toList).isSome = false := by rw [hp]; rfl
      rw [spcKeep, if_neg hlen]
      simp only [hr, hp2, Bool.false_and]
  · simpa [volcanoKeep] using hl

/-- Witness for the amended claim C10 at concrete dropped and kept
records. -/
theorem claim_C10_witness :
    cycloneKeep [("lat", PyVal.str "x"), ("lon", PyVal.num 0)] = false ∧
    spcKeep ["a", "b", "c", "d", "e", "f", "x", "1"] = false ∧
    volcanoKeep (PyVal.list [PyVal.str "x", PyVal.str "y"]) = true :=
  ⟨claim_C10_amended_drop_policy.1 [("lat", PyVal.str "x"), ("lon", PyVal.num 0)] (by decide),
   claim_C10_amended_drop_policy.2.2.1 ["a", "b", "c", "d", "e", "f", "x", "1"]
     "1" "x" ["f", "e", "d", "c", "b", "a"] (by decide) (by decide),
   claim_C10_amended_drop_policy.2.2.2 [PyVal.str "x", PyVal.str "y"] (by decide)⟩

/-- Claim C4 fails on the code for non-2xx statuses below 400: a 304
response is neither in the retry forcelist nor raised on by
`raise_for_status`, so the call returns the body successfully instead
of failing as an HTTP error. -/
theorem claim_C4_counterexample :
    (304 < 200 ∨ 300 ≤ 304) ∧ (304 : ℕ) ∉ statusForcelist ∧
    fetchGet (fun _ => 304) = (FetchOutcome.success, 1) :=
  ⟨by omega, by decide, by decide⟩

lemma mem_taggedEvents_tag {α : Type} {s : Src} {o : Option (List α)} {p : Src × α}
    (hp : p ∈ taggedEvents s o) : p.1 = s := by
  rcases List.mem_map.mp hp with ⟨a, -, rfl⟩
  rfl

lemma pairwise_total {β : Type} {R : β → β → Prop} (h : ∀ a b, R a b) :
    ∀ l : List β, List.Pairwise R l
  | [] => List.Pairwise.nil
  | a :: t => List.Pairwise.cons (fun b _ => h a b) (pairwise_total h t)

lemma pairwise_taggedEvents {α : Type} (R : Src × α → Src × α → Prop) (s : Src)
    (o : Option (List α)) (h : ∀ p q : Src × α, p.1 = s → q.1 = s → R p q) :
    List.Pairwise R (taggedEvents s o) := by
  rw [taggedEvents]
  rw [List.pairwise_map]
  exact pairwise_total (fun a b => h (s, a) (s, b) rfl rfl) _

lemma pairwise_flatten_tagged {α : Type} :
    ∀ blocks : List (Src × Option (List α)),
      List.Pairwise (fun b c : Src × Option (List α) => srcPriority b.1 ≤ srcPriority c.1)
        blocks →
      List.Pairwise (fun p q : Src × α => srcPriority p.1 ≤ srcPriority q.1)
        ((blocks.map (fun b => taggedEvents b.1 b.2)).flatten) := by
  intro blocks
  induction blocks with
  | nil => intro _; exact List.Pairwise.nil
  | cons b t ih =>
    intro h
    rcases List.pairwise_cons.mp h with ⟨hb, ht⟩
    simp only [List.map_cons, List.flatten_cons]
    refine List.pairwise_append.mpr ⟨?_, ih ht, ?_⟩
    · exact pairwise_taggedEvents _ _ _ (fun p q hp hq => by rw [hp, hq])
    · intro p hp q hq
      rcases List.mem_flatten.mp hq with ⟨l, hl, hql⟩
      rcases List.mem_map.mp hl with ⟨c, hc, rfl⟩
      rw [mem_taggedEvents_tag hp, mem_taggedEvents_tag hql]
      exact hb c hc

lemma filter_taggedEvents {α : Type} (s t : Src) (o : Option (List α)) :
    (taggedEvents s o).filter (fun p => p.1 == t) =
      if s = t then taggedEvents s o else [] := by
  rw [taggedEvents, List.filter_map]
  by_cases h : s = t
  · subst h
    rw [if_pos rfl]
    have hf : List.filter ((fun p : Src × α => p.1 == s) ∘ fun a => (s, a)) (o.getD []) =
        o.getD [] := by
      rw [List.filter_eq_self]
      intro a _
      simp [Function.comp]
    rw [hf]
  · rw [if_neg h]
    have hf : List.filter ((fun p : Src × α => p.1 == t) ∘ fun a => (s, a)) (o.getD []) =
        [] := by
      rw [List.filter_eq_nil_iff]
      intro a _
      simp [Function.comp, h]
    rw [hf, List.map_nil]

/-- Claim C8 fails on the code: the two earthquake feeds are merged in
fetch-completion order, so two runs over identical feed payloads that
complete in opposite orders produce differently ordered snapshots. -/
theorem claim_C8_counterexample :
    ([[1], [2]] : List (List ℕ)).Perm [[2], [1]] ∧
    assembleEvents (α := ℕ) (some []) (some []) (some []) (some [])
        (some [[1], [2]]) (some []) (some []) ≠
      assembleEvents (α := ℕ) (some []) (some []) (some []) (some [])
        (some [[2], [1]]) (some []) (some []) := by
  constructor
  · decide
  · decide

/-- Claim C8 as amended: the assembled events are always grouped by
source in the fixed priority order radar, volcano, alerts,
severe-reports, earthquakes, wildfires, cyclones, and each source's
events are exactly its own; but inside the earthquake group the two
feeds' batches appear in fetch-completion order, so the full ordering
can differ between runs with identical inputs. -/
theorem claim_C8_amended_grouping :
    (∀ (α : Type) (r v n sp : Option (List α)) (eq : Option (List (List α)))
        (f st : Option (List α)),
      List.Pairwise (fun p q : Src × α => srcPriority p.1 ≤ srcPriority q.1)
        (assembleEvents r v n sp eq f st)) ∧
    (∀ (α : Type) (r v n sp : Option (List α)) (eq : Option (List (List α)))
        (f st : Option (List α)),
      (assembleEvents r v n sp eq f st).filter (fun p => p.1 == Src.radar) =
        taggedEvents Src.radar r ∧
      (assembleEvents r v n sp eq f st).filter (fun p => p.1 == Src.volcano) =
        taggedEvents Src.volcano v ∧
      (assembleEvents r v n sp eq f st).filter (fun p => p.1 == Src.nws) =
        taggedEvents Src.nws n ∧
      (assembleEvents r v n sp eq f st).filter (fun p => p.1 == Src.spc) =
        taggedEvents Src.spc sp ∧
      (assembleEvents r v n sp eq f st).filter (fun p => p.1 == Src.quake) =
        taggedEvents Src.quake (some ((eq.getD []).flatten)) ∧
      (assembleEvents r v n sp eq f st).filter (fun p => p.1 == Src.fire) =
        taggedEvents Src.fire f ∧
      (assembleEvents r v n sp eq f st).filter (fun p => p.1 == Src.storm) =
        taggedEvents Src.storm st) := by
  constructor
  · intro α r v n sp eq f st
    have hform : assembleEvents r v n sp eq f st =
        (([(Src.radar, r), (Src.volcano, v), (Src.nws, n), (Src.spc, sp),
           (Src.quake, some ((eq.getD []).flatten)), (Src.fire, f),
           (Src.storm, st)].map (fun b => taggedEvents b.1 b.2)).flatten) := by
      simp [assembleEvents]
    rw [hform]
    apply pairwise_flatten_tagged
    simp [List.pairwise_cons, srcPriority]
  · intro α r v n sp eq f st
    refine ⟨?_, ?_, ?_, ?_, ?_, ?_, ?_⟩ <;>
      simp [assembleEvents, List.filter_append, filter_taggedEvents]

/-- Claim C7 fails on the code: in an all-sources-fail cycle the event
list is indeed empty and the cycle completes, but the statistics are
not populated per source with attempt counts and failure kinds; they
are bare success counters all equal to 0 (the severe-report and
earthquake counters are still assigned because those blocks swallow
their fetch errors internally), and the volcano source has no
statistics entry at all. -/
theorem claim_C7_counterexample :
    assembleEvents (α := ℕ) none none none none none none none = [] ∧
    buildCounts none none 0 0 none none =
      [("radar", 0), ("nws", 0), ("earthquakes", 0), ("fires", 0), ("storms", 0),
       ("spc_lsr", 0)] ∧
    lookupCount "volcano" (buildCounts none none 0 0 none none) = none :=
  ⟨rfl, rfl, rfl⟩

/-- Claim C7 as amended: a total fetch failure of one source contributes
exactly the same (empty) events as a source with no records, leaving
every other source's processing untouched; a cycle with every source
failing still completes with an empty event list; but the per-source
statistics are only success counters: the alert, wildfire and cyclone
counters are simply not reassigned when their block raises, staying at
the initial 0, the radar counter becomes 1 only when a frame arrives,
the severe-report and earthquake blocks swallow fetch errors internally
and still assign 0 (so the spc_lsr key is present even then), the
volcano source is never counted at all, and no attempt count or failure
kind is recorded anywhere. -/
theorem claim_C7_amended_failure_isolation :
    (∀ (α : Type) (r v n sp : Option (List α)) (eq : Option (List (List α)))
        (f st : Option (List α)),
      assembleEvents none v n sp eq f st = assembleEvents (some []) v n sp eq f st ∧
      assembleEvents r none n sp eq f st = assembleEvents r (some []) n sp eq f st ∧
      assembleEvents r v none sp eq f st = assembleEvents r v (some []) sp eq f st ∧
      assembleEvents r v n none eq f st = assembleEvents r v n (some []) eq f st ∧
      assembleEvents r v n sp none f st = assembleEvents r v n sp (some []) f st ∧
      assembleEvents r v n sp eq none st = assembleEvents r v n sp eq (some []) st ∧
      assembleEvents r v n sp eq f none = assembleEvents r v n sp eq f (some [])) ∧
    (assembleEvents (α := ℕ) none none none none none none none = [] ∧
      buildCounts none none 0 0 none none =
        [("radar", 0), ("nws", 0), ("earthquakes", 0), ("fires", 0), ("storms", 0),
         ("spc_lsr", 0)]) ∧
    (∀ (rb : Option Bool) (spcN eqN : ℕ) (fN stN : Option ℕ),
      lookupCount "nws" (buildCounts rb none spcN eqN fN stN) = some 0) ∧
    (∀ (rb : Option Bool) (nN : Option ℕ) (eqN : ℕ) (fN stN : Option ℕ),
      lookupCount "spc_lsr" (buildCounts rb nN 0 eqN fN stN) = some 0) ∧
    (∀ (rb : Option Bool) (nN : Option ℕ) (spcN eqN : ℕ) (fN stN : Option ℕ),
      lookupCount "volcano" (buildCounts rb nN spcN eqN fN stN) = none) := by
  refine ⟨?_, ⟨rfl, rfl⟩, ?_, ?_, ?_⟩
  · intro α r v n sp eq f st
    exact ⟨rfl, rfl, rfl, rfl, rfl, rfl, rfl⟩
  · intro rb spcN eqN fN stN
    rcases rb with - | b
    · rcases fN with - | f1 <;> rcases stN with - | s1 <;> rfl
    · cases b <;> (rcases fN with - | f1 <;> rcases stN with - | s1 <;> rfl)
  · intro rb nN eqN fN stN
    rcases rb with - | b
    · rcases nN with - | n1 <;> rcases fN with - | f1 <;> rcases stN with - | s1 <;> rfl
    · cases b <;> (rcases nN with - | n1 <;> rcases fN with - | f1 <;>
        rcases stN with - | s1 <;> rfl)
  · intro rb nN spcN eqN fN stN
    rcases rb with - | b
    · rcases nN with - | n1 <;> rcases fN with - | f1 <;> rcases stN with - | s1 <;> rfl
    · cases b <;> (rcases nN with - | n1 <;> rcases fN with - | f1 <;>
        rcases stN with - | s1 <;> rfl)

/-- Claim C4 as amended: forcelisted statuses (429, 500, 502, 503, 504)
are retried up to 2 additional attempts, with backoff 0.5 s before the
first retry doubling for each later retry; statuses of 400 and above
outside the forcelist fail immediately as an HTTP error with zero
retries; statuses below 400 outside the forcelist return without error;
a server answering 503 forever is asked exactly 3 times and then fails,
and a 404 fails on the single first attempt. -/
theorem claim_C4_amended_retry :
    (∀ s : ℕ, fetchGet (fun _ => s) =
      if s ∈ statusForcelist then (FetchOutcome.exhausted, 3)
      else if 400 ≤ s then (FetchOutcome.httpError s, 1)
      else (FetchOutcome.success, 1)) ∧
    fetchGet (fun _ => 503) = (FetchOutcome.exhausted, 3) ∧
    fetchGet (fun _ => 404) = (FetchOutcome.httpError 404, 1) ∧
    backoffDelay 1 = backoffFactor ∧
    (∀ k : ℕ, backoffDelay (k + 2) = 2 * backoffDelay (k + 1)) := by
  refine ⟨fun s => ?_, by decide, by decide, by norm_num [backoffDelay, backoffFactor], ?_⟩
  · by_cases hf : s ∈ statusForcelist
    · simp [fetchGet, totalRetries, runFetch, hf]
    · by_cases h4 : 400 ≤ s
      · simp [fetchGet, totalRetries, runFetch, hf, h4]
      · simp [fetchGet, totalRetries, runFetch, hf, h4]
  · intro k
    simp only [backoffDelay]
    ring

lemma ten_rpow_429_pos : (0 : ℝ) < (10 : ℝ) ^ (4.29 : ℝ) :=
  Real.rpow_pos_of_pos (by norm_num) _

lemma ten_rpow_429_pow_hundred : ((10 : ℝ) ^ (4.29 : ℝ)) ^ (100 : ℕ) = (10 : ℝ) ^ (429 : ℕ) := by
  rw [← Real.rpow_natCast ((10 : ℝ) ^ (4.29 : ℝ)) 100,
      ← Real.rpow_mul (by norm_num : (0 : ℝ) ≤ 10)]
  rw [show (4.29 : ℝ) * (100 : ℕ) = ((429 : ℕ) : ℝ) by norm_num]
  exact Real.rpow_natCast 10 429

lemma ten_rpow_429_lt : (10 : ℝ) ^ (4.29 : ℝ) < 19510 := by
  have hnat : ((10 : ℝ) ^ (429 : ℕ)) < (19510 : ℝ) ^ (100 : ℕ) := by
    have h : (10 : ℕ) ^ 429 < 19510 ^ 100 := by norm_num
    exact_mod_cast h
  rw [← ten_rpow_429_pow_hundred] at hnat
  exact lt_of_pow_lt_pow_left₀ 100 (by norm_num) hnat

lemma ten_rpow_429_gt : (19490 : ℝ) < (10 : ℝ) ^ (4.29 : ℝ) := by
  have hnat : ((19490 : ℝ) ^ (100 : ℕ)) < (10 : ℝ) ^ (429 : ℕ) := by
    have h : (19490 : ℕ) ^ 100 < 10 ^ 429 := by norm_num
    exact_mod_cast h
  rw [← ten_rpow_429_pow_hundred] at hnat
  exact lt_of_pow_lt_pow_left₀ 100 ten_rpow_429_pos.le hnat

lemma quakeBase6_eq : quakeBaseRadius 6 = Real.sqrt ((10 : ℝ) ^ (4.29 : ℝ) / Real.pi) := by
  rw [quakeBaseRadius, feltAreaKm2, show (1.02 : ℝ) * 6 - 1.83 = 4.29 by norm_num,
      show (0.5 : ℝ) = 1 / 2 by norm_num, ← Real.sqrt_eq_rpow]

lemma quakeBase6_bounds : (78.7 : ℝ) < quakeBaseRadius 6 ∧ quakeBaseRadius 6 < 78.81 := by
  rw [quakeBase6_eq]
  constructor
  · rw [Real.lt_sqrt (by norm_num), lt_div_iff₀ Real.pi_pos]
    nlinarith [Real.pi_lt_d6, ten_rpow_429_gt]
  · rw [Real.sqrt_lt' (by norm_num), div_lt_iff₀ Real.pi_pos]
    nlinarith [Real.pi_gt_d6, ten_rpow_429_lt]

/-- Claim C1: the seismic impact radius equals
sqrt(10^(1.02 M - 1.83) / pi) km attenuated by 0.5 beyond 300 km depth
and by 0.7 beyond 70 km depth, clamped into [2, 300] km; at M = 6.0 and
depth 10 km it is within 0.1 of 78.8 km with no depth attenuation. -/
theorem claim_C1_seismic_radius :
    (∀ M d : ℝ, quakeRadiusKm M (some d) = specSeismicRadius M d) ∧
    |quakeRadiusKm 6 (some 10) - 78.8| < 1 / 10 ∧
    depthFactor (some 10) = 1 := by
  have hd10 : depthFactor (some 10) = 1 := by
    rw [depthFactor]
    norm_num
  refine ⟨fun M d => ?_, ?_, hd10⟩
  · rw [quakeRadiusKm, specSeismicRadius, quakeBaseRadius, feltAreaKm2, Real.sqrt_eq_rpow]
    simp only [depthFactor]
    norm_num
  · have hb := quakeBase6_bounds
    have hr : quakeRadiusKm 6 (some 10) = quakeBaseRadius 6 := by
      rw [quakeRadiusKm, hd10, mul_one, min_eq_right (by linarith [hb.2]),
          max_eq_right (by linarith [hb.1])]
    rw [hr, abs_lt]
    constructor
    · linarith [hb.1]
    · linarith [hb.2]

lemma quakeBaseRadius_mono {M1 M2 : ℝ} (h : M1 ≤ M2) :
    quakeBaseRadius M1 ≤ quakeBaseRadius M2 := by
  rw [quakeBaseRadius, quakeBaseRadius]
  apply Real.rpow_le_rpow (div_nonneg ?_ Real.pi_pos.le) ?_ (by norm_num)
  · exact (Real.rpow_pos_of_pos (by norm_num) _).le
  · apply (div_le_div_iff_of_pos_right Real.pi_pos).mpr
    rw [feltAreaKm2, feltAreaKm2]
    exact Real.rpow_le_rpow_of_exponent_le (by norm_num) (by linarith)

lemma depthFactor_nonneg (d : Option ℝ) : 0 ≤ depthFactor d := by
  rcases d with - | dk
  · norm_num [depthFactor]
  · simp only [depthFactor]
    split_ifs <;> norm_num

/-- Claim C9: at equal depth the pre-clamp seismic radius is
monotonically non-decreasing in the magnitude, and the clamped radius
always lies in [2, 300] km. -/
theorem claim_C9_monotone_and_clamped :
    (∀ (M1 M2 : ℝ) (d : Option ℝ), M1 ≤ M2 →
      quakeBaseRadius M1 * depthFactor d ≤ quakeBaseRadius M2 * depthFactor d) ∧
    (∀ (M : ℝ) (d : Option ℝ), 2 ≤ quakeRadiusKm M d ∧ quakeRadiusKm M d ≤ 300) := by
  constructor
  · intro M1 M2 d h
    exact mul_le_mul_of_nonneg_right (quakeBaseRadius_mono h) (depthFactor_nonneg d)
  · intro M d
    refine ⟨le_max_left 2 _, max_le (by norm_num) (min_le_left _ _)⟩

/-- Witness for claim C9 at magnitudes 5 and 6 and depth 10 km. -/
theorem claim_C9_witness :
    (5 : ℝ) ≤ 6 ∧
    quakeBaseRadius 5 * depthFactor (some 10) ≤ quakeBaseRadius 6 * depthFactor (some 10) ∧
    2 ≤ quakeRadiusKm 5 (some 10) ∧ quakeRadiusKm 5 (some 10) ≤ 300 :=
  ⟨by norm_num, claim_C9_monotone_and_clamped.1 5 6 (some 10) (by norm_num),
   (claim_C9_monotone_and_clamped.2 5 (some 10)).1,
   (claim_C9_monotone_and_clamped.2 5 (some 10)).2⟩

lemma sqrt_one_div_pi_le_one : Real.sqrt (1 / Real.pi) ≤ 1 := by
  have h : (1 : ℝ) / Real.pi ≤ 1 := by
    rw [div_le_one Real.pi_pos]
    linarith [Real.pi_gt_three]
  calc Real.sqrt (1 / Real.pi) ≤ Real.sqrt 1 := Real.sqrt_le_sqrt h
  _ = 1 := Real.sqrt_one

/-- Claim C5 fails on the code: at scan -1, track 1, latitude 180 the
code floors the cosine at 0 and the footprint area at 1 m² and clamps
up to 150 m, while the claim formula squares the two negatives away and
clamps down to 2000 m. -/
theorem claim_C5_counterexample :
    fireRadiusM (some (-1)) (some 1) (some 180) = 150 ∧
    specFireRadius (-1) 1 180 = 2000 := by
  have hcos : Real.cos ((180 : ℝ) * Real.pi / 180) = -1 := by
    rw [show (180 : ℝ) * Real.pi / 180 = Real.pi by ring]
    exact Real.cos_pi
  constructor
  · show max 150 (min 2000 (Real.sqrt
      (max 1 ((-1) * 111320 * max 0 (Real.cos ((180 : ℝ) * Real.pi / 180)) * (1 * 111320)) /
        Real.pi))) = 150
    rw [hcos, show max (0 : ℝ) (-1) = 0 from max_eq_left (by norm_num),
        show (-1 : ℝ) * 111320 * 0 * (1 * 111320) = 0 by ring,
        show max (1 : ℝ) 0 = 1 from max_eq_left (by norm_num)]
    rw [min_eq_right (le_trans sqrt_one_div_pi_le_one (by norm_num))]
    exact max_eq_left (le_trans sqrt_one_div_pi_le_one (by norm_num))
  · rw [specFireRadius, hcos,
        show (-1 : ℝ) * 111320 * -1 * (1 * 111320) = 12392142400 by ring]
    have h2000 : (2000 : ℝ) ≤ Real.sqrt (12392142400 / Real.pi) := by
      rw [Real.le_sqrt (by norm_num) (by positivity)]
      rw [le_div_iff₀ Real.pi_pos]
      nlinarith [Real.pi_lt_d2]
    rw [min_eq_left h2000]
    exact max_eq_right (by norm_num)

/-- Claim C5 as amended: with the scan and track angles non-negative
and the latitude within [-90, 90] the code radius equals the claim
formula (the cosine and area floors never change the clamped result
there), and a row missing any of the three numbers gets exactly
500 m. -/
theorem claim_C5_amended_footprint :
    (∀ sc tr la : ℝ, 0 ≤ sc → 0 ≤ tr → |la| ≤ 90 →
      fireRadiusM (some sc) (some tr) (some la) = specFireRadius sc tr la) ∧
    (∀ tr la : Option ℝ, fireRadiusM none tr la = 500) ∧
    (∀ sc la : Option ℝ, fireRadiusM sc none la = 500) ∧
    (∀ sc tr : Option ℝ, fireRadiusM sc tr none = 500) := by
  refine ⟨fun sc tr la h1 h2 h3 => ?_, fun tr la => rfl, fun sc la => ?_, fun sc tr => ?_⟩
  · have hcos : 0 ≤ Real.cos (la * Real.pi / 180) := by
      apply Real.cos_nonneg_of_mem_Icc
      rcases abs_le.mp h3 with ⟨hlo, hhi⟩
      constructor
      · nlinarith [Real.pi_pos]
      · nlinarith [Real.pi_pos]
    show max 150 (min 2000 (Real.sqrt
      (max 1 (sc * 111320 * max 0 (Real.cos (la * Real.pi / 180)) * (tr * 111320)) /
        Real.pi))) = specFireRadius sc tr la
    rw [max_eq_right hcos, specFireRadius]
    rcases le_or_lt 1 (sc * 111320 * Real.cos (la * Real.pi / 180) * (tr * 111320)) with hw | hw
    · rw [max_eq_right hw]
    · have hw0 : 0 ≤ sc * 111320 * Real.cos (la * Real.pi / 180) * (tr * 111320) := by
        apply mul_nonneg
        · apply mul_nonneg
          · exact mul_nonneg h1 (by norm_num)
          · exact hcos
        · exact mul_nonneg h2 (by norm_num)
      have hle : sc * 111320 * Real.cos (la * Real.pi / 180) * (tr * 111320) / Real.pi ≤
          1 / Real.pi := by
        have hm := mul_le_mul_of_nonneg_right hw.le (inv_nonneg.mpr Real.pi_pos.le)
        simpa [div_eq_mul_inv] using hm
      have hsm : Real.sqrt (sc * 111320 * Real.cos (la * Real.pi / 180) * (tr * 111320) /
          Real.pi) ≤ 1 :=
        le_trans (Real.sqrt_le_sqrt hle) sqrt_one_div_pi_le_one
      rw [max_eq_left hw.le]
      rw [min_eq_right (le_trans sqrt_one_div_pi_le_one (by norm_num)),
          min_eq_right (le_trans hsm (by norm_num))]
      rw [max_eq_left (le_trans sqrt_one_div_pi_le_one (by norm_num)),
          max_eq_left (le_trans hsm (by norm_num))]
  · rcases sc with - | x <;> rfl
  · rcases sc with - | x <;> rcases tr with - | y <;> rfl

/-- Witness for the amended claim C5 at scan 2, track 3, latitude 0. -/
theorem claim_C5_witness :
    0 ≤ (2 : ℝ) ∧ 0 ≤ (3 : ℝ) ∧ |(0 : ℝ)| ≤ 90 ∧
    fireRadiusM (some 2) (some 3) (some 0) = specFireRadius 2 3 0 :=
  ⟨by norm_num, by norm_num, by norm_num,
   claim_C5_amended_footprint.1 2 3 0 (by norm_num) (by norm_num) (by norm_num)⟩

end StormMap
